import Mathlib

/-!
Verification of the driver pipeline in `demo.py` of the 3d-cinemagraphy
repository.  Each Python construct used by the claims is embedded as an
executable Lean definition, and the claims are settled as theorems about
those definitions.
-/

namespace Cinemagraphy

/-! ## Side-tag construction (demo.py, render, lines 169-175)

The per-frame point lists of the forward and backward passes are lists of
per-layer point batches.  `all_side_ids` starts as an all-zero vector of the
length of the concatenated point list, and the Python statement
`all_side_ids[-num_pts_2:] = 1` assigns 1 from the start index of the Python
slice `[-n:]` onwards.  Python evaluates `-0` to `0`, so for `n = 0` the slice
covers the whole vector; for `n > 0` its start is `max(len - n, 0)`, which is
truncated subtraction on naturals. -/

/-- Start index of the Python slice `v[-n:]` on a vector of length `len`. -/
def pyNegSliceStart (len n : ℕ) : ℕ :=
  if n = 0 then 0 else len - n

/-- `fillOnesFrom s v` models the Python slice assignment `v[s:] = 1`:
entries before position `s` are kept, entries from `s` on become `1`. -/
def fillOnesFrom : ℕ → List ℕ → List ℕ
  | _, [] => []
  | 0, _ :: rest => 1 :: fillOnesFrom 0 rest
  | s + 1, a :: rest => a :: fillOnesFrom s rest

/-- The side-tag vector built in `render` for one output frame:
`all_side_ids = torch.zeros_like(...)` followed by
`all_side_ids[-num_pts_2:] = 1`, where the zero vector has the length of
`torch.cat(all_pts_f + all_pts_b)` and
`num_pts_2 = sum([len(x) for x in all_pts_b])`. -/
def sideIds {P : Type} (all_pts_f all_pts_b : List (List P)) : List ℕ :=
  let total := ((all_pts_f ++ all_pts_b).map List.length).sum
  let num_pts_2 := (all_pts_b.map List.length).sum
  fillOnesFrom (pyNegSliceStart total num_pts_2) (List.replicate total 0)

lemma fillOnesFrom_zero (l : List ℕ) :
    fillOnesFrom 0 l = List.replicate l.length 1 := by
  induction l with
  | nil => rfl
  | cons a rest ih => simp [fillOnesFrom, ih, List.replicate_succ]

lemma fillOnesFrom_replicate_append (s : ℕ) (l : List ℕ) :
    fillOnesFrom s (List.replicate s 0 ++ l) =
      List.replicate s 0 ++ fillOnesFrom 0 l := by
  induction s with
  | zero => simp
  | succ n ih => simp [List.replicate_succ, fillOnesFrom, ih]

lemma sideIds_eq {P : Type} (f b : List (List P)) (hb : 1 ≤ (b.map List.length).sum) :
    sideIds f b =
      List.replicate ((f.map List.length).sum) 0 ++
        List.replicate ((b.map List.length).sum) 1 := by
  unfold sideIds
  have hne : (b.map List.length).sum ≠ 0 := by omega
  simp only [pyNegSliceStart, hne, if_false, List.map_append, List.sum_append]
  have hstart : (f.map List.length).sum + (b.map List.length).sum -
      (b.map List.length).sum = (f.map List.length).sum := by omega
  rw [hstart, List.replicate_add, fillOnesFrom_replicate_append,
    fillOnesFrom_zero, List.length_replicate]

/-- C1: as stated the claim fails when the backward pass yields no points,
because Python's `[-0:]` slice starts at 0: with one forward point and no
backward points the side-tag vector is `[1]`, not `[0]`. -/
theorem sideIds_claim_counterexample :
    ¬ (sideIds [[(0 : ℕ)]] ([] : List (List ℕ)) =
        List.replicate 1 0 ++ List.replicate 0 1) := by
  decide

/-- C1 (amended): whenever the backward pass produces at least one point,
the side-tag vector is exactly `len(forward_points)` zeros followed by
`len(backward_points)` ones. -/
theorem sideIds_marks_backward {P : Type} (f b : List (List P))
    (hb : 1 ≤ (b.map List.length).sum) :
    sideIds f b =
      List.replicate ((f.map List.length).sum) 0 ++
        List.replicate ((b.map List.length).sum) 1 :=
  sideIds_eq f b hb

/-- Witness for C1's amended theorem at a concrete frame: one forward layer
with two points and one backward layer with one point. -/
theorem sideIds_marks_backward_witness :
    1 ≤ (([[(5 : ℕ)]].map List.length).sum) ∧
      sideIds [[(1 : ℕ), 2]] [[(5 : ℕ)]] =
        List.replicate 2 0 ++ List.replicate 1 1 := by
  refine ⟨by decide, ?_⟩
  have h := sideIds_marks_backward [[(1 : ℕ), 2]] [[(5 : ℕ)]] (by decide)
  simpa using h

/-! ## Flow integration (demo.py, render, lines 153-156)

`renderer.euler_integration` lives in `lib/renderer`, outside the files at
hand, so it is modelled from the spec; the step counts passed to it are taken
verbatim from `demo.py`. -/

/-- Modelled from the spec: `lib/renderer`'s `euler_integration` is not among
the given files.  Fixed-field explicit Euler integration: the displacement
accumulates the velocity field `n` times, the field held constant per step
(not re-sampled at intermediate positions). -/
def euler_integration {P V : Type} [AddCommMonoid V] (flow : P → V) : ℕ → P → V
  | 0, _ => 0
  | n + 1, p => euler_integration flow n p + flow p

/-- Forward displacement of one output frame (demo.py line 153):
`renderer.euler_integration(flow, middle_index.long() - start_index.long())`.
The index difference is an integer tensor; a non-negative value is the step
count. -/
def flow_f {P V : Type} [AddCommMonoid V] (flow : P → V)
    (start_index middle_index : ℤ) : P → V :=
  euler_integration flow (middle_index - start_index).toNat

/-- Backward displacement of one output frame (demo.py line 154):
`renderer.euler_integration(-flow, end_index.long() + 1 - middle_index.long())`. -/
def flow_b {P V : Type} [AddCommGroup V] (flow : P → V)
    (end_index middle_index : ℤ) : P → V :=
  euler_integration (fun p => - flow p) (end_index + 1 - middle_index).toNat

/-- C2: the forward displacement Euler-integrates the flow field for
`index - start` steps and the backward displacement Euler-integrates the
negated field for `end - index + 1` steps. -/
theorem flow_step_counts {P V : Type} [AddCommGroup V] (flow : P → V)
    (start_index end_index middle_index : ℤ) :
    flow_f flow start_index middle_index =
        euler_integration flow (middle_index - start_index).toNat ∧
      flow_b flow end_index middle_index =
        euler_integration (fun p => - flow p) (end_index - middle_index + 1).toNat := by
  refine ⟨rfl, ?_⟩
  unfold flow_b
  have h : end_index + 1 - middle_index = end_index - middle_index + 1 := by ring
  rw [h]

/-- C3: Euler integration with step count 0 is the zero displacement for every
field and every point; in particular, at the first frame (`index = start`) the
forward displacement is zero everywhere. -/
theorem euler_integration_zero_steps {P V : Type} [AddCommMonoid V]
    (flow : P → V) (p : P) (s : ℤ) :
    euler_integration flow 0 p = 0 ∧ flow_f flow s s p = 0 := by
  constructor
  · rfl
  · unfold flow_f
    rw [sub_self]
    rfl

/-! ## Input-data construction (demo.py, get_input_data, lines 66-77) -/

/-- The intrinsics matrix built in `get_input_data` (lines 73-75):
`np.array([[max(h, w), 0, w // 2], [0, max(h, w), h // 2], [0, 0, 1]])`.
Python `//` on non-negative integers is truncated division, division on `ℕ`. -/
def intrinsic (h w : ℕ) : Matrix (Fin 3) (Fin 3) ℕ :=
  !![max h w, 0, w / 2;
     0, max h w, h / 2;
     0, 0, 1]

/-- The source pose built in `get_input_data` (line 77): `np.eye(4)`. -/
def pose : Matrix (Fin 4) (Fin 4) ℚ := 1

/-- C4: for every image height `h` and width `w`, the intrinsics have focal
length `max h w` on both axes, principal point at the image center
`(w / 2, h / 2)`, zero skew, a homogeneous bottom row `(0, 0, 1)`, and the
source pose is the 4x4 identity matrix. -/
theorem input_intrinsics_pose (h w : ℕ) :
    intrinsic h w 0 0 = max h w ∧ intrinsic h w 1 1 = max h w ∧
      intrinsic h w 0 2 = w / 2 ∧ intrinsic h w 1 2 = h / 2 ∧
      intrinsic h w 0 1 = 0 ∧ intrinsic h w 1 0 = 0 ∧
      intrinsic h w 2 0 = 0 ∧ intrinsic h w 2 1 = 0 ∧ intrinsic h w 2 2 = 1 ∧
      pose = (1 : Matrix (Fin 4) (Fin 4) ℚ) := by
  refine ⟨?_, ?_, ?_, ?_, ?_, ?_, ?_, ?_, ?_, rfl⟩ <;> simp [intrinsic, Matrix.vecHead, Matrix.vecTail]

/-- The depth map computation of `get_input_data` (line 69):
`src_depth = 1. / np.maximum(src_disp, 1e-6)`, per pixel. -/
def src_depth_of_disp (src_disp : ℚ) : ℚ :=
  1 / max src_disp (1 / 1000000)

/-- C5: the disparity is clamped to at least `1e-6` before inversion, so for
every non-negative disparity value the resulting depth is positive and bounded
above by `1e6` (finite). -/
theorem src_depth_guarded (d : ℚ) (_hd : 0 ≤ d) :
    (1 / 1000000 : ℚ) ≤ max d (1 / 1000000) ∧
      0 < src_depth_of_disp d ∧ src_depth_of_disp d ≤ 1000000 := by
  have hclamp : (1 / 1000000 : ℚ) ≤ max d (1 / 1000000) := le_max_right _ _
  have hpos : (0 : ℚ) < max d (1 / 1000000) :=
    lt_of_lt_of_le (by norm_num) hclamp
  refine ⟨hclamp, ?_, ?_⟩
  · exact div_pos one_pos hpos
  · rw [src_depth_of_disp, div_le_iff₀ hpos]
    nlinarith [hclamp]

/-- Witness for C5 at disparity 0: the clamp engages and the depth is the
finite positive value bounded by `1e6`. -/
theorem src_depth_guarded_witness :
    (0 : ℚ) ≤ 0 ∧ ((1 / 1000000 : ℚ) ≤ max 0 (1 / 1000000) ∧
      0 < src_depth_of_disp 0 ∧ src_depth_of_disp 0 ≤ 1000000) :=
  ⟨le_refl 0, src_depth_guarded 0 (le_refl 0)⟩

/-! ## Frame assembly (demo.py, render, lines 138 and 186-188)

`frame = (255. * pred_img...).astype(np.uint8)` followed by
`frame = frame[crop:-crop, crop:-crop]` with `crop = 32`.  A frame is a list
of rows of normalized rational color values (one channel suffices for the
claims, which are per-entry).  `astype(np.uint8)` truncates toward zero and
wraps modulo 256; normalized colors are non-negative, where truncation is the
floor. -/

/-- One entry of `(255. * pred_img).astype(np.uint8)`. -/
def toUint8 (q : ℚ) : ℕ :=
  (⌊255 * q⌋).toNat % 256

/-- The Python slice `l[32:-32]`: elements from index `32` (clipped to the
length) up to index `len - 32` (clipped to `0`). -/
def pyCrop32 {α : Type} (l : List α) : List α :=
  (l.drop 32).take (l.length - 64)

/-- The frame assembly of `render` (lines 186-187): scale by 255, convert to
8-bit, then crop 32 pixels from every edge (`frame[32:-32, 32:-32]`). -/
def assembleFrame (f : List (List ℚ)) : List (List ℕ) :=
  (pyCrop32 (f.map (List.map toUint8))).map pyCrop32

lemma pyCrop32_length {α : Type} (l : List α) :
    (pyCrop32 l).length = l.length - 64 := by
  simp only [pyCrop32, List.length_take, List.length_drop]
  omega

lemma pyCrop32_map {α β : Type} (g : α → β) (l : List α) :
    pyCrop32 (l.map g) = (pyCrop32 l).map g := by
  simp [pyCrop32, List.map_take, List.map_drop]

lemma assembleFrame_eq (f : List (List ℚ)) :
    assembleFrame f = (pyCrop32 f).map (fun row => (pyCrop32 row).map toUint8) := by
  unfold assembleFrame
  rw [pyCrop32_map]
  simp only [List.map_map]
  refine List.map_congr_left (fun row _ => ?_)
  simp [Function.comp, pyCrop32_map]

/-- C6: for a rendered frame of `H` rows of width `W`, the assembled frame has
`H - 64` rows of width `W - 64` (truncated subtraction), and every assembled
row is the 8-bit conversion of the 32-cropped corresponding rendered row. -/
theorem assembled_frame_dims (f : List (List ℚ)) (W : ℕ)
    (hW : ∀ row ∈ f, row.length = W) :
    (assembleFrame f).length = f.length - 64 ∧
      (∀ r ∈ assembleFrame f, r.length = W - 64) ∧
      assembleFrame f = (pyCrop32 f).map (fun row => (pyCrop32 row).map toUint8) := by
  refine ⟨?_, ?_, assembleFrame_eq f⟩
  · simp [assembleFrame, pyCrop32_length]
  · intro r hr
    rw [assembleFrame_eq] at hr
    obtain ⟨row, hrow, rfl⟩ := List.mem_map.mp hr
    have hmem : row ∈ f :=
      List.mem_of_mem_drop (List.mem_of_mem_take hrow)
    simp [pyCrop32_length, hW row hmem]

/-- Witness for C6 on a concrete 66x66 zero frame: the assembled frame is
2x2. -/
theorem assembled_frame_dims_witness :
    (∀ row ∈ List.replicate 66 (List.replicate 66 (0 : ℚ)), row.length = 66) ∧
      ((assembleFrame (List.replicate 66 (List.replicate 66 (0 : ℚ)))).length =
          66 - 64 ∧
        (∀ r ∈ assembleFrame (List.replicate 66 (List.replicate 66 (0 : ℚ))),
          r.length = 66 - 64)) := by
  have hW : ∀ row ∈ List.replicate 66 (List.replicate 66 (0 : ℚ)),
      row.length = 66 := by
    intro row hrow
    rw [List.eq_of_mem_replicate hrow]
    simp
  have h := assembled_frame_dims (List.replicate 66 (List.replicate 66 (0 : ℚ)))
    66 hW
  exact ⟨hW, by simpa using h.1, h.2.1⟩

/-- C10: the 32-pixel border crop is unconditional, so a rendered frame whose
height or width is at most 64 assembles to a frame with zero pixels (and no
error is raised). -/
theorem small_frame_assembles_empty (f : List (List ℚ)) (W : ℕ)
    (hW : ∀ row ∈ f, row.length = W) (hsmall : f.length ≤ 64 ∨ W ≤ 64) :
    ((assembleFrame f).map List.length).sum = 0 := by
  rcases hsmall with hH | hWle
  · have hlen : (assembleFrame f).length = 0 := by
      simp [assembleFrame, pyCrop32_length]
      omega
    rw [List.length_eq_zero] at hlen
    simp [hlen]
  · refine List.sum_eq_zero ?_
    intro x hx
    obtain ⟨r, hr, rfl⟩ := List.mem_map.mp hx
    have := (assembled_frame_dims f W hW).2.1 r hr
    omega

/-- Witness for C10 on a concrete 70x64 zero frame: the assembled frame holds
zero pixels. -/
theorem small_frame_assembles_empty_witness :
    (∀ row ∈ List.replicate 70 (List.replicate 64 (0 : ℚ)), row.length = 64) ∧
      ((List.replicate 70 (List.replicate 64 (0 : ℚ))).length ≤ 64 ∨ 64 ≤ 64) ∧
      ((assembleFrame (List.replicate 70 (List.replicate 64 (0 : ℚ)))).map
          List.length).sum = 0 := by
  have hW : ∀ row ∈ List.replicate 70 (List.replicate 64 (0 : ℚ)),
      row.length = 64 := by
    intro row hrow
    rw [List.eq_of_mem_replicate hrow]
    simp
  exact ⟨hW, Or.inr (le_refl 64),
    small_frame_assembles_empty _ 64 hW (Or.inr (le_refl 64))⟩

/-! ## Frame ordering (demo.py, render, lines 143-193)

The per-trajectory loop walks `time_steps = range(0, num_frames)` in order and
executes `frames.append(frame)`; the finished list `frames` is passed to
`imageio.mimwrite` unchanged. -/

/-- The frame-accumulation loop of `render`: starting from `frames = []`, each
time step appends the frame rendered for it. -/
def renderLoop {F : Type} (renderFrame : ℕ → F) (num_frames : ℕ) : List F :=
  (List.range num_frames).foldl (fun frames t_step => frames ++ [renderFrame t_step]) []

/-- The frame sequence handed to `imageio.mimwrite` (line 193): exactly the
accumulated list, unchanged. -/
def encoderFrames {F : Type} (renderFrame : ℕ → F) (num_frames : ℕ) : List F :=
  renderLoop renderFrame num_frames

lemma foldl_append_singleton {α F : Type} (g : α → F) (acc : List F) (xs : List α) :
    xs.foldl (fun frames x => frames ++ [g x]) acc = acc ++ xs.map g := by
  induction xs generalizing acc with
  | nil => simp
  | cons x rest ih => simp [List.foldl_cons, ih]

/-- C7: frames are appended in increasing time-index order — the sequence
handed to the video encoder is exactly `[renderFrame 0, renderFrame 1, ...,
renderFrame (n-1)]`. -/
theorem frames_in_time_order {F : Type} (renderFrame : ℕ → F) (num_frames : ℕ) :
    encoderFrames renderFrame num_frames = (List.range num_frames).map renderFrame := by
  unfold encoderFrames renderLoop
  rw [foldl_append_singleton]
  simp

/-! ## Mask hints (demo.py, generate_mask_hints_from_user, lines 24-27) -/

/-- A dense tensor: a shape together with the entry at every index vector. -/
structure Tensor where
  shape : List ℕ
  entry : List ℕ → ℚ

/-- `torch.zeros(shape)`. -/
def torchZeros (shape : List ℕ) : Tensor :=
  ⟨shape, fun _ => 0⟩

/-- `generate_mask_hints_from_user` (lines 24-27): ignores both arguments and
returns `torch.zeros((1, 1, 768, 768))` and `torch.zeros((1, 2, 768, 768))`. -/
def generate_mask_hints_from_user {A C : Type} (args : A) (config : C) :
    Tensor × Tensor :=
  (torchZeros [1, 1, 768, 768], torchZeros [1, 2, 768, 768])

/-- C8: for every `args` and `config`, the mask is an all-zero tensor of shape
`(1, 1, 768, 768)`, the hint is an all-zero tensor of shape
`(1, 2, 768, 768)`, and the result does not depend on either argument. -/
theorem mask_hints_always_zero {A C : Type} (a₁ a₂ : A) (c₁ c₂ : C) :
    (generate_mask_hints_from_user a₁ c₁).1.shape = [1, 1, 768, 768] ∧
      (generate_mask_hints_from_user a₁ c₁).2.shape = [1, 2, 768, 768] ∧
      (∀ ix, (generate_mask_hints_from_user a₁ c₁).1.entry ix = 0) ∧
      (∀ ix, (generate_mask_hints_from_user a₁ c₁).2.entry ix = 0) ∧
      generate_mask_hints_from_user a₁ c₁ = generate_mask_hints_from_user a₂ c₂ :=
  ⟨rfl, rfl, fun _ => rfl, fun _ => rfl, rfl⟩

/-! ## Source-image loading (demo.py, get_input_data, lines 41-46)

`try: img_file = join(input_dir, 'image.png'); motion_rgb = Image.open(img_file)
except: img_file = join(input_dir, 'image.jpg'); motion_rgb = Image.open(img_file)`.
The bare `except` catches any failure of the first open; a failure of the
second open propagates out of `get_input_data`.  The opener is the
environment, a function from paths to an optional image. -/

/-- The image-loading step of `get_input_data`: attempt `image.png`, fall back
to `image.jpg` on any failure, propagate failure when both fail.  Returns the
chosen file path together with the opened image, mirroring that `img_file` is
reused later in the function. -/
def loadSourceImage {Img : Type} (openImg : String → Option Img)
    (input_dir : String) : Option (String × Img) :=
  match openImg (input_dir ++ "/image.png") with
  | some img => some (input_dir ++ "/image.png", img)
  | none =>
    match openImg (input_dir ++ "/image.jpg") with
    | some img => some (input_dir ++ "/image.jpg", img)
    | none => none

/-- C9: `image.png` is attempted first; on any failure of that attempt
`image.jpg` is opened instead; loading fails only when both attempts fail. -/
theorem image_load_fallback {Img : Type} (openImg : String → Option Img)
    (dir : String) :
    (∀ i, openImg (dir ++ "/image.png") = some i →
        loadSourceImage openImg dir = some (dir ++ "/image.png", i)) ∧
      (openImg (dir ++ "/image.png") = none →
        ∀ i, openImg (dir ++ "/image.jpg") = some i →
          loadSourceImage openImg dir = some (dir ++ "/image.jpg", i)) ∧
      (openImg (dir ++ "/image.png") = none →
        openImg (dir ++ "/image.jpg") = none →
          loadSourceImage openImg dir = none) := by
  refine ⟨?_, ?_, ?_⟩
  · intro i h
    simp [loadSourceImage, h]
  · intro hpng i hjpg
    simp [loadSourceImage, hpng, hjpg]
  · intro hpng hjpg
    simp [loadSourceImage, hpng, hjpg]

/-- Witness for C9 in an input directory holding only a jpg: the fallback
opens `image.jpg`. -/
theorem image_load_fallback_witness :
    loadSourceImage
        (fun s => if s = "in/image.jpg" then some (7 : ℕ) else none) "in" =
      some ("in/image.jpg", 7) := by
  refine (image_load_fallback
    (fun s => if s = "in/image.jpg" then some (7 : ℕ) else none) "in").2.1
    ?_ 7 ?_ <;> simp

end Cinemagraphy
